import Mathlib

/-!
Verification of the NATS client script parser and session manager.

The definitions in this file are a shallow embedding of the TypeScript
sources (core/nats-document-parser.ts, core/nats-actions.ts,
services/nats-session.ts).  External platform and broker facilities
(the WHATWG URL parser, randomUUID, the broker connection object, the
log sink) are modelled as explicit parameters or small boundary models;
everything else follows the source line by line.
-/

/-! ## Association-list model of the JS Map / plain-object stores

JS `Map` has unique keys, preserves insertion order, `set` on an existing
key updates in place, `delete` removes the entry. -/

def mapGet {α : Type} [BEq α] {β : Type} (m : List (α × β)) (k : α) : Option β :=
  match m with
  | [] => none
  | (k0, v0) :: rest => if k0 == k then some v0 else mapGet rest k

def mapSet {α : Type} [BEq α] {β : Type} (m : List (α × β)) (k : α) (v : β) :
    List (α × β) :=
  match m with
  | [] => [(k, v)]
  | (k0, v0) :: rest =>
    if k0 == k then (k0, v) :: rest else (k0, v0) :: mapSet rest k v

def mapDelete {α : Type} [BEq α] {β : Type} (m : List (α × β)) (k : α) :
    List (α × β) :=
  m.filter (fun e => !(e.1 == k))

/-! ## JS string primitives used by the sources -/

/-- Whitespace class of JS `\s` / `String.prototype.trim`
(restricted to the code points that occur in practice). -/
def isJsSpace (c : Char) : Bool :=
  c == ' ' || c == '\t' || c == '\n' || c == '\r' ||
  c == Char.ofNat 11 || c == Char.ofNat 12 || c == Char.ofNat 160 ||
  c == Char.ofNat 65279

/-- JS `String.prototype.trim`. -/
def jsTrim (s : String) : String :=
  String.mk (((s.data.dropWhile isJsSpace).reverse.dropWhile isJsSpace).reverse)

/-- JS `String.prototype.startsWith` on char lists. -/
def listStartsWith (pre cs : List Char) : Bool :=
  match pre, cs with
  | [], _ => true
  | _ :: _, [] => false
  | p :: ps, c :: rest => p == c && listStartsWith ps rest

def strStartsWith (s pre : String) : Bool :=
  listStartsWith pre.data s.data

/-- JS `String.prototype.endsWith`. -/
def strEndsWith (s suf : String) : Bool :=
  listStartsWith suf.data.reverse s.data.reverse

/-- JS `String.prototype.includes`. -/
def listContainsSub (pat cs : List Char) : Bool :=
  match cs with
  | [] => listStartsWith pat []
  | _ :: rest => listStartsWith pat cs || listContainsSub pat rest

def strContainsSub (s pat : String) : Bool :=
  listContainsSub pat.data s.data

/-- `text.split(/\r?\n/)`: split on `\n`, consuming a directly preceding `\r`. -/
def splitLinesAux : List Char → List Char → List String
  | [], acc => [String.mk acc.reverse]
  | '\r' :: '\n' :: rest, acc => String.mk acc.reverse :: splitLinesAux rest []
  | '\n' :: rest, acc => String.mk acc.reverse :: splitLinesAux rest []
  | c :: rest, acc => splitLinesAux rest (c :: acc)

def splitLines (text : String) : List String :=
  splitLinesAux text.data []

/-! ## Document segmenter (segmentNatsDocument) -/

structure RawLine where
  text : String
  lineNumber : Nat
  deriving DecidableEq

inductive NatsDocumentSegment where
  | delimiter (line : RawLine)
  | block (lines : List RawLine)
  deriving DecidableEq

/-- `BLOCK_DELIMITER = /^\s*#{3,}\s*$/`: after trimming, three or more
hash marks and nothing else. -/
def isBlockDelimiter (s : String) : Bool :=
  let t := jsTrim s
  decide (3 ≤ t.data.length) && t.data.all (fun c => c == '#')

/-- The loop body of `segmentNatsDocument`, with `flushBlock` inlined:
`current` is the pending block accumulator, `idx` the current line index. -/
def segmentLoop : List String → Nat → List RawLine → List NatsDocumentSegment
  | [], _, current =>
    if current.isEmpty then [] else [NatsDocumentSegment.block current]
  | raw :: rest, idx, current =>
    if isBlockDelimiter raw then
      (if current.isEmpty then [] else [NatsDocumentSegment.block current]) ++
        NatsDocumentSegment.delimiter ⟨raw, idx⟩ :: segmentLoop rest (idx + 1) []
    else
      segmentLoop rest (idx + 1) (current ++ [⟨raw, idx⟩])

def segmentNatsDocument (text : String) : List NatsDocumentSegment :=
  let segments := segmentLoop (splitLines text) 0 []
  if segments.isEmpty then [NatsDocumentSegment.block []] else segments

/-- The lines carried by one segment (a delimiter carries its single line). -/
def segmentLines : NatsDocumentSegment → List RawLine
  | NatsDocumentSegment.delimiter line => [line]
  | NatsDocumentSegment.block lines => lines

def segmentsLines : List NatsDocumentSegment → List RawLine
  | [] => []
  | s :: rest => segmentLines s ++ segmentsLines rest

/-- The original line sequence paired with zero-based line numbers
starting at `idx`. -/
def numberFrom (idx : Nat) : List String → List RawLine
  | [] => []
  | l :: rest => ⟨l, idx⟩ :: numberFrom (idx + 1) rest

/-! ## decodeURIComponent (ECMA-262 Decode, platform function)

`decodeURIComponent` throws a `URIError` when a percent escape is not two
hex digits or the escaped bytes are not a valid UTF-8 sequence; `none`
models the throw. -/

def strToLower (s : String) : String := String.mk (s.data.map Char.toLower)

def strToUpper (s : String) : String := String.mk (s.data.map Char.toUpper)

def hexDigitVal (c : Char) : Option Nat :=
  if '0' ≤ c ∧ c ≤ '9' then some (c.toNat - 48)
  else if 'A' ≤ c ∧ c ≤ 'F' then some (c.toNat - 55)
  else if 'a' ≤ c ∧ c ≤ 'f' then some (c.toNat - 87)
  else none

/-- A percent-decoding token: an unescaped character or an escaped byte. -/
inductive PctTok where
  | raw (c : Char)
  | byte (b : Nat)
  deriving DecidableEq

def pctTokens : List Char → Option (List PctTok)
  | [] => some []
  | '%' :: h1 :: h2 :: rest =>
    match hexDigitVal h1, hexDigitVal h2 with
    | some a, some b => (pctTokens rest).map (fun ts => PctTok.byte (16 * a + b) :: ts)
    | _, _ => none
  | '%' :: _ => none
  | c :: rest => (pctTokens rest).map (fun ts => PctTok.raw c :: ts)

def isUtf8Cont (b : Nat) : Bool := 128 ≤ b && b < 192

/-- Decode the token stream: escaped bytes must form complete, minimal,
non-surrogate UTF-8 sequences, exactly as ECMA-262 `Decode` requires. -/
def decodePctToks : List PctTok → Option (List Char)
  | [] => some []
  | PctTok.raw c :: rest => (decodePctToks rest).map (fun cs => c :: cs)
  | PctTok.byte b :: rest =>
    if b < 128 then (decodePctToks rest).map (fun cs => Char.ofNat b :: cs)
    else if 194 ≤ b ∧ b ≤ 223 then
      match rest with
      | PctTok.byte b2 :: rest2 =>
        if isUtf8Cont b2 then
          (decodePctToks rest2).map
            (fun cs => Char.ofNat ((b - 192) * 64 + (b2 - 128)) :: cs)
        else none
      | _ => none
    else if 224 ≤ b ∧ b ≤ 239 then
      match rest with
      | PctTok.byte b2 :: PctTok.byte b3 :: rest2 =>
        if isUtf8Cont b2 && isUtf8Cont b3 then
          let cp := (b - 224) * 4096 + (b2 - 128) * 64 + (b3 - 128)
          if 2048 ≤ cp ∧ ¬(55296 ≤ cp ∧ cp ≤ 57343) then
            (decodePctToks rest2).map (fun cs => Char.ofNat cp :: cs)
          else none
        else none
      | _ => none
    else if 240 ≤ b ∧ b ≤ 244 then
      match rest with
      | PctTok.byte b2 :: PctTok.byte b3 :: PctTok.byte b4 :: rest2 =>
        if isUtf8Cont b2 && isUtf8Cont b3 && isUtf8Cont b4 then
          let cp := (b - 240) * 262144 + (b2 - 128) * 4096 +
            (b3 - 128) * 64 + (b4 - 128)
          if 65536 ≤ cp ∧ cp ≤ 1114111 then
            (decodePctToks rest2).map (fun cs => Char.ofNat cp :: cs)
          else none
        else none
      | _ => none
    else none

def decodeURIComponentJs (s : String) : Option String :=
  ((pctTokens s.data).bind decodePctToks).map String.mk

/-! ## WHATWG URL (platform API)

Model of Node's `new URL(...)` restricted to the
`scheme://[user[:pass]@]host[:port][/path][?query][#fragment]` shapes this
client deals in (`none` models the `TypeError` throw).  Scheme and host are
lowercased; query and fragment are discarded by the callers. -/

structure ParsedUrl where
  protocol : String
  username : String
  password : String
  hostname : String
  port : String
  pathname : String
  deriving DecidableEq

def isSchemeChar (c : Char) : Bool :=
  c.isAlphanum || c == '+' || c == '-' || c == '.'

def splitAtFirst (c : Char) (cs : List Char) : List Char × Option (List Char) :=
  match cs with
  | [] => ([], none)
  | x :: rest =>
    if x == c then ([], some rest)
    else
      let r := splitAtFirst c rest
      (x :: r.1, r.2)

def splitAtLast (c : Char) (cs : List Char) : Option (List Char × List Char) :=
  match splitAtFirst c cs.reverse with
  | (_, none) => none
  | (revAfter, some revBefore) => some (revBefore.reverse, revAfter.reverse)

def urlPlatformModel (s : String) : Option ParsedUrl :=
  match splitAtFirst ':' s.data with
  | (_, none) => none
  | (schemeChars, some afterColon) =>
    match schemeChars with
    | [] => none
    | c0 :: _ =>
      if !(c0.isAlpha && schemeChars.all isSchemeChar) then none
      else
        let protocol := String.mk (schemeChars.map Char.toLower) ++ ":"
        match afterColon with
        | '/' :: '/' :: afterSlashes =>
          let authority := afterSlashes.takeWhile
            (fun c => !(c == '/' || c == '?' || c == '#'))
          let afterAuth := afterSlashes.drop authority.length
          let pathname := afterAuth.takeWhile (fun c => !(c == '?' || c == '#'))
          let (userinfo, hostport) :=
            match splitAtLast '@' authority with
            | some (ui, hp) => (some ui, hp)
            | none => (none, authority)
          let (username, password) :=
            match userinfo with
            | none => ("", "")
            | some ui =>
              let r := splitAtFirst ':' ui
              (String.mk r.1, String.mk (r.2.getD []))
          let hp := splitAtFirst ':' hostport
          let host := String.mk (hp.1.map Char.toLower)
          let portChars := hp.2.getD []
          if !portChars.all Char.isDigit then none
          else if host.data.isEmpty && !hostport.isEmpty then none
          else some ⟨protocol, username, password, host, String.mk portChars,
            String.mk pathname⟩
        | rest =>
          let pathname := rest.takeWhile (fun c => !(c == '?' || c == '#'))
          some ⟨protocol, "", "", "", "", String.mk pathname⟩

/-! ## Action model (core/nats-actions.ts) -/

inductive NatsActionType where
  | subscribe | request | publish | reply | jetstreamPull
  deriving DecidableEq

structure NatsAction where
  type : NatsActionType
  subject : String
  lineNumber : Nat
  server : Option String := none
  data : Option String := none
  template : Option String := none
  stream : Option String := none
  durable : Option String := none
  batchSize : Option Int := none
  timeoutMs : Option Int := none
  headers : Option (List (String × String)) := none
  deriving DecidableEq

/-- `actionKeywords` followed by the `mapKeyword` dispatch. -/
def mapKeyword (keyword : String) : Option NatsActionType :=
  let upper := strToUpper keyword
  if upper == "SUBSCRIBE" then some NatsActionType.subscribe
  else if upper == "REQUEST" then some NatsActionType.request
  else if upper == "PUBLISH" then some NatsActionType.publish
  else if upper == "REPLY" then some NatsActionType.reply
  else if upper == "JETSTREAM" then some NatsActionType.jetstreamPull
  else none

/-! ## Block parser (core/nats-document-parser.ts) -/

def metaHeaderNames : List String :=
  ["nats-server", "nats-timeout", "nats-stream", "nats-durable",
   "nats-batch", "nats-reply-mode", "nats-subject"]

def supportedProtocols : List String := ["nats:", "tls:", "ws:", "wss:"]

/-- `COMMENT_PATTERN = /^\s*(#|\/\/)/`; both call sites test it against
already-trimmed text. -/
def isCommentLine (trimmed : String) : Bool :=
  strStartsWith trimmed "#" || strStartsWith trimmed "//"

/-- `HEADER_KEY_PATTERN = /^[A-Za-z0-9-]+$/`. -/
def isHeaderKey (s : String) : Bool :=
  !s.data.isEmpty && s.data.all (fun c => c.isAlphanum || c == '-')

/-- `RANDOM_ID_PATTERN = /randomId\(\)/gi`: case-insensitive literal match
at the head of the character list. -/
def matchesRandomId (cs : List Char) : Bool :=
  (cs.take 10).map Char.toLower == "randomid()".data

/-- `sanitizeRandomIds`, with `randomUUID()` modelled by the identifier
supply `ids` indexed by a running counter (each occurrence gets a fresh
index, quoted like the source's template literal). -/
def sanitizeGo (ids : Nat → String) : List Char → Nat → List Char × Nat
  | [], ctr => ([], ctr)
  | c :: rest, ctr =>
    if matchesRandomId (c :: rest) then
      match rest with
      | _ :: _ :: _ :: _ :: _ :: _ :: _ :: _ :: _ :: rest9 =>
        let r := sanitizeGo ids rest9 (ctr + 1)
        ('"' :: ((ids ctr).data ++ '"' :: r.1), r.2)
      | _ =>
        -- unreachable: a match guarantees at least ten characters
        (c :: rest, ctr)
    else
      let r := sanitizeGo ids rest ctr
      (c :: r.1, r.2)

def sanitizeRandomIds (ids : Nat → String) (value : String) (ctr : Nat) :
    String × Nat :=
  let r := sanitizeGo ids value.data ctr
  (String.mk r.1, r.2)

/-- JS `Number.parseInt(value, 10)` guarded by the source's
`if (!value) return undefined` and `Number.isFinite` checks. -/
def parseInteger (value : Option String) : Option Int :=
  match value with
  | none => none
  | some s =>
    if s.data.isEmpty then none
    else
      let cs := s.data.dropWhile isJsSpace
      let signed : Bool × List Char :=
        match cs with
        | '-' :: t => (true, t)
        | '+' :: t => (false, t)
        | _ => (false, cs)
      let digits := signed.2.takeWhile Char.isDigit
      if digits.isEmpty then none
      else
        let n : Nat := digits.foldl (fun a c => a * 10 + (c.toNat - 48)) 0
        some (if signed.1 then -(n : Int) else (n : Int))

def firstWord (s : String) : String :=
  String.mk (s.data.takeWhile (fun c => !isJsSpace c))

/-- `s.indexOf(c)`. -/
def idxOfChar (c : Char) : List Char → Option Nat
  | [] => none
  | x :: rest =>
    if x == c then some 0
    else (idxOfChar c rest).map (fun n => n + 1)

def findRequestLineIndexGo : List RawLine → Nat → Option Nat
  | [], _ => none
  | l :: rest, idx =>
    let trimmed := jsTrim l.text
    if trimmed.data.isEmpty then findRequestLineIndexGo rest (idx + 1)
    else if isCommentLine trimmed || strStartsWith trimmed "@" then
      findRequestLineIndexGo rest (idx + 1)
    else if (mapKeyword (firstWord trimmed)).isSome then some idx
    else none

def findRequestLineIndex (lines : List RawLine) : Option Nat :=
  findRequestLineIndexGo lines 0

/-- The `parseHeaders` while-loop, iterating over the suffix of `lines`
from the current `index` (the suffix is non-empty exactly when
`index < lines.length`); returns (headers, nextIndex) and threads the
identifier counter.  Headers accumulate in reverse and are put back in
order at every exit. -/
def parseHeadersLoop (ids : Nat → String) :
    List RawLine → Nat → Nat → List (String × String) →
      List (String × String) × Nat × Nat
  | [], index, ctr, acc => (acc.reverse, index, ctr)
  | l :: rest, index, ctr, acc =>
    let raw := l.text
    let trimmed := jsTrim raw
    if trimmed.data.isEmpty then (acc.reverse, index + 1, ctr)
    else if isCommentLine trimmed then
      parseHeadersLoop ids rest (index + 1) ctr acc
    else
      match idxOfChar ':' raw.data with
      | none => (acc.reverse, index, ctr)
      | some sep =>
        let key := jsTrim (String.mk (raw.data.take sep))
        if !isHeaderKey key then (acc.reverse, index, ctr)
        else
          let value := jsTrim (String.mk (raw.data.drop (sep + 1)))
          let r := sanitizeRandomIds ids value ctr
          parseHeadersLoop ids rest (index + 1) r.2 ((key, r.1) :: acc)

def parseHeaders (ids : Nat → String) (lines : List RawLine)
    (startIndex ctr : Nat) : List (String × String) × Nat × Nat :=
  parseHeadersLoop ids (lines.drop startIndex) startIndex ctr []

def joinNL : List String → String
  | [] => ""
  | [x] => x
  | x :: rest => x ++ "\n" ++ joinNL rest

def collectBody (ids : Nat → String) (lines : List RawLine)
    (startIndex ctr : Nat) : Option String × Nat :=
  if lines.length ≤ startIndex then (none, ctr)
  else
    let bodyLines := (lines.drop startIndex).map RawLine.text
    let frontTrimmed := bodyLines.dropWhile (fun l => (jsTrim l).data.isEmpty)
    let trimmed :=
      (frontTrimmed.reverse.dropWhile (fun l => (jsTrim l).data.isEmpty)).reverse
    if trimmed.isEmpty then (none, ctr)
    else
      let r := sanitizeRandomIds ids (joinNL trimmed) ctr
      (some r.1, r.2)

/-- `partitionHeaders`: metadata headers keyed by lowercased name go to
`meta`, everything else to the forwarded-header object (`none` when that
object stays empty). -/
def partitionHeaders (entries : List (String × String)) :
    Option (List (String × String)) × List (String × String) :=
  match entries with
  | [] => (none, [])
  | _ =>
    let r := entries.foldl
      (fun (acc : List (String × String) × List (String × String)) e =>
        let lower := strToLower e.1
        if metaHeaderNames.contains lower then (acc.1, mapSet acc.2 lower e.2)
        else (mapSet acc.1 e.1 e.2, acc.2))
      ([], [])
    (if r.1.isEmpty then none else some r.1, r.2)

def tryParseUrl (purl : String → Option ParsedUrl) (value : String) :
    Option ParsedUrl :=
  match purl value with
  | none => none
  | some url =>
    if supportedProtocols.contains url.protocol then some url else none

def buildServerUrl (url : ParsedUrl) : String :=
  let auth :=
    if url.username.data.isEmpty then ""
    else
      url.username ++
        (if url.password.data.isEmpty then "" else ":" ++ url.password) ++ "@"
  let port := if url.port.data.isEmpty then "" else ":" ++ url.port
  url.protocol ++ "//" ++ auth ++ url.hostname ++ port

/-- `decodeSubject`; the unguarded `decodeURIComponent` call means a
malformed percent escape escapes as a `URIError` (`Except.error`). -/
def decodeSubject (pathname : String) : Except String (Option String) :=
  let trimmed :=
    if strStartsWith pathname "/" then String.mk (pathname.data.drop 1)
    else pathname
  match decodeURIComponentJs trimmed with
  | none => Except.error "URI malformed"
  | some decoded =>
    Except.ok (if decoded.data.isEmpty then none else some decoded)

structure ResolvedConnection where
  subject : Option String
  server : String
  deriving DecidableEq

def resolveConnection (purl : String → Option ParsedUrl) (target : String)
    (meta : List (String × String)) :
    Except String (Option ResolvedConnection) :=
  let trimmedTarget := jsTrim target
  let candidateSubject :=
    if trimmedTarget.data.isEmpty then (mapGet meta "nats-subject").getD ""
    else trimmedTarget
  match tryParseUrl purl candidateSubject with
  | some url =>
    let server := buildServerUrl url
    match decodeSubject url.pathname with
    | Except.error e => Except.error e
    | Except.ok d =>
      let subject :=
        match d with
        | some s => some s
        | none => mapGet meta "nats-subject"
      match subject with
      | none => Except.ok none
      | some s =>
        if s.data.isEmpty then Except.ok none
        else Except.ok (some ⟨some s, server⟩)
  | none =>
    match mapGet meta "nats-server" with
    | none => Except.ok none
    | some serverHeader =>
      if serverHeader.data.isEmpty then Except.ok none
      else
        let subject :=
          if candidateSubject.data.isEmpty then mapGet meta "nats-subject"
          else some candidateSubject
        match subject with
        | none => Except.ok none
        | some s =>
          if s.data.isEmpty then Except.ok none
          else Except.ok (some ⟨some s, serverHeader⟩)

def looksLikeJson (value : Option String) : Bool :=
  match value with
  | none => false
  | some s =>
    if s.data.isEmpty then false
    else
      match (jsTrim s).data with
      | [] => false
      | c :: _ => c == Char.ofNat 123 || c == '[' || c == '"' || c == Char.ofNat 39

/-- Truthiness of `meta.get(k)` (`undefined` and `""` are falsy). -/
def metaTruthy (meta : List (String × String)) (k : String) : Bool :=
  match mapGet meta k with
  | none => false
  | some v => !v.data.isEmpty

def parseActionFromBlock (purl : String → Option ParsedUrl)
    (ids : Nat → String) (lines : List RawLine) (ctr : Nat) :
    Except String (Option NatsAction × Nat) :=
  match lines with
  | [] => Except.ok (none, ctr)
  | _ :: _ =>
    match findRequestLineIndex lines with
    | none => Except.ok (none, ctr)
    | some requestIndex =>
        let reqLine := lines.getD requestIndex ⟨"", 0⟩
        let requestLine := jsTrim reqLine.text
        let keyword := firstWord requestLine
        match mapKeyword keyword with
        | none => Except.ok (none, ctr)
        | some type =>
          let target := jsTrim (String.mk (requestLine.data.drop keyword.data.length))
          let hdr := parseHeaders ids lines (requestIndex + 1) ctr
          let part := partitionHeaders hdr.1
          let headers := part.1
          let meta := part.2
          let body := collectBody ids lines hdr.2.1 hdr.2.2
          match resolveConnection purl target meta with
          | Except.error e => Except.error e
          | Except.ok none => Except.ok (none, body.2)
          | Except.ok (some connection) =>
            let timeoutMs := parseInteger (mapGet meta "nats-timeout")
            if type == NatsActionType.jetstreamPull then
              if !metaTruthy meta "nats-stream" || !metaTruthy meta "nats-durable" then
                Except.ok (none, body.2)
              else
                let batchCandidate :=
                  (parseInteger (mapGet meta "nats-batch")).getD 1
                Except.ok (some
                  { type := type
                    lineNumber := reqLine.lineNumber
                    subject := (mapGet meta "nats-stream").getD ""
                    server := some connection.server
                    stream := mapGet meta "nats-stream"
                    durable := mapGet meta "nats-durable"
                    batchSize := some (max 1 batchCandidate)
                    timeoutMs := timeoutMs
                    headers := headers }, body.2)
            else
              if (connection.subject.getD "").data.isEmpty then
                Except.ok (none, body.2)
              else if type == NatsActionType.reply then
                let replyMode :=
                  strToLower ((mapGet meta "nats-reply-mode").getD "")
                let templateMode :=
                  replyMode == "template" ||
                    (replyMode.data.isEmpty && !looksLikeJson body.1)
                Except.ok (some
                  { type := type
                    lineNumber := reqLine.lineNumber
                    subject := connection.subject.getD ""
                    server := some connection.server
                    template := if templateMode then body.1 else none
                    data := if templateMode then none else body.1
                    headers := headers }, body.2)
              else
                Except.ok (some
                  { type := type
                    lineNumber := reqLine.lineNumber
                    subject := connection.subject.getD ""
                    server := some connection.server
                    data := body.1
                    headers := headers
                    timeoutMs := timeoutMs }, body.2)

def parseNatsDocumentLoop (purl : String → Option ParsedUrl)
    (ids : Nat → String) :
    List NatsDocumentSegment → Nat → Except String (List NatsAction × Nat)
  | [], ctr => Except.ok ([], ctr)
  | NatsDocumentSegment.delimiter _ :: rest, ctr =>
    parseNatsDocumentLoop purl ids rest ctr
  | NatsDocumentSegment.block lines :: rest, ctr =>
    match parseActionFromBlock purl ids lines ctr with
    | Except.error e => Except.error e
    | Except.ok (none, ctr2) => parseNatsDocumentLoop purl ids rest ctr2
    | Except.ok (some a, ctr2) =>
      match parseNatsDocumentLoop purl ids rest ctr2 with
      | Except.error e => Except.error e
      | Except.ok r => Except.ok (a :: r.1, r.2)

def parseNatsDocument (purl : String → Option ParsedUrl)
    (ids : Nat → String) (text : String) : Except String (List NatsAction) :=
  (parseNatsDocumentLoop purl ids (segmentNatsDocument text) 0).map (fun r => r.1)

deriving instance DecidableEq for Except

/-! ## JSON values (boundary model of `JSON.parse` results)

Numbers are carried by their canonical JSON rendering, since no code in
scope computes with them — they are only re-serialised. -/

mutual
inductive JsonValue where
  | null
  | boolean (b : Bool)
  | num (render : String)
  | str (s : String)
  | arr (elems : JsonArr)
  | obj (fields : JsonObj)
  deriving DecidableEq
inductive JsonArr where
  | nil
  | cons (head : JsonValue) (tail : JsonArr)
  deriving DecidableEq
inductive JsonObj where
  | nil
  | cons (key : String) (val : JsonValue) (tail : JsonObj)
  deriving DecidableEq
end

def lowerHexDigit (n : Nat) : Char :=
  if n < 10 then Char.ofNat (48 + n) else Char.ofNat (87 + n)

/-- `JSON.stringify` escaping for one string character. -/
def jsonEscapeChar (c : Char) : List Char :=
  if c == '"' then ['\\', '"']
  else if c == '\\' then ['\\', '\\']
  else if c == Char.ofNat 8 then ['\\', 'b']
  else if c == '\t' then ['\\', 't']
  else if c == '\n' then ['\\', 'n']
  else if c == Char.ofNat 12 then ['\\', 'f']
  else if c == '\r' then ['\\', 'r']
  else if c.toNat < 32 then
    ['\\', 'u', '0', '0', lowerHexDigit (c.toNat / 16), lowerHexDigit (c.toNat % 16)]
  else [c]

def jsonQuote (s : String) : String :=
  "\"" ++ String.mk ((s.data.map jsonEscapeChar).flatten) ++ "\""

/-! `JSON.stringify` (on decoded JSON values: no `undefined`, no
functions, no custom `toJSON`). -/
mutual
def jsonStringify : JsonValue → String
  | JsonValue.null => "null"
  | JsonValue.boolean b => if b then "true" else "false"
  | JsonValue.num render => render
  | JsonValue.str s => jsonQuote s
  | JsonValue.arr elems => "[" ++ jsonStringifyArr elems ++ "]"
  | JsonValue.obj fields =>
    String.mk [Char.ofNat 123] ++ jsonStringifyObj fields ++ String.mk [Char.ofNat 125]
def jsonStringifyArr : JsonArr → String
  | JsonArr.nil => ""
  | JsonArr.cons h JsonArr.nil => jsonStringify h
  | JsonArr.cons h t => jsonStringify h ++ "," ++ jsonStringifyArr t
def jsonStringifyObj : JsonObj → String
  | JsonObj.nil => ""
  | JsonObj.cons k v JsonObj.nil => jsonQuote k ++ ":" ++ jsonStringify v
  | JsonObj.cons k v t =>
    jsonQuote k ++ ":" ++ jsonStringify v ++ "," ++ jsonStringifyObj t
end

/-! ## Inbound message (boundary model of the broker's `MsgLike`)

`body` is what `msg.string()` returns; `jsonVal` is the outcome of
`msg.json()` (`none` models the decode throwing); `headers` is the
iterable header map with its `get` accessor. -/

structure Msg where
  subject : String
  reply : Option String := none
  headers : Option (List (String × String)) := none
  body : String
  jsonVal : Option JsonValue := none
  deriving DecidableEq

/-- `safeStringResponse`: the JSON rendering of the body when decodable,
else the raw text. -/
def safeStringResponse (msg : Msg) : String :=
  match msg.jsonVal with
  | some v => jsonStringify v
  | none => msg.body

def jsObjLookup (key : String) : JsonObj → Option JsonValue
  | JsonObj.nil => none
  | JsonObj.cons k v t => if k == key then some v else jsObjLookup key t

/-- `data?.[key]` for decoded JSON data.  The model covers own-property
access on plain objects (and the `undefined` result on `null` and
primitives); prototype-inherited names and array/string index access are
outside the model, and theorems about `$json` substitution are read in
that scope. -/
def jsLookup (data : JsonValue) (key : String) : Option JsonValue :=
  match data with
  | JsonValue.obj fields => jsObjLookup key fields
  | _ => none

/-! ## Template interpolator (interpolateTemplate)

Each `result.replace(regex, ...)` pass is a left-to-right scan that, at
each position, asks its matcher for a match (consumed length and output
text); fuel is the input length, and a matcher always consumes at least
one character, so the fuel never runs out. -/

/-- ECMA-262 `GetSubstitution` for a plain replacement string with no
capture groups: `$$`, `$&`, a dollar before the backtick (preceding
portion) and a dollar before the apostrophe (following portion) are
special; anything else after `$` stays literal. -/
def expandReplacement (matched before after : List Char) : List Char → List Char
  | [] => []
  | '$' :: '$' :: rest => '$' :: expandReplacement matched before after rest
  | '$' :: '&' :: rest => matched ++ expandReplacement matched before after rest
  | '$' :: c :: rest =>
    if c == Char.ofNat 96 then before ++ expandReplacement matched before after rest
    else if c == Char.ofNat 39 then after ++ expandReplacement matched before after rest
    else '$' :: expandReplacement matched before after (c :: rest)
  | c :: rest => c :: expandReplacement matched before after rest

def jsReplaceGo (matcher : List Char → List Char → Option (Nat × List Char)) :
    Nat → List Char → List Char → List Char
  | 0, _, rest => rest
  | _ + 1, _, [] => []
  | fuel + 1, processed, c :: rest =>
    match matcher processed (c :: rest) with
    | some (n, out) =>
      out ++ jsReplaceGo matcher fuel (((c :: rest).take n).reverse ++ processed)
        ((c :: rest).drop n)
    | none => c :: jsReplaceGo matcher fuel (c :: processed) rest

def jsReplace (matcher : List Char → List Char → Option (Nat × List Char))
    (s : String) : String :=
  String.mk (jsReplaceGo matcher s.data.length [] s.data)

/-- `/\$msg\.data/g` with the plain replacement string
`safeStringResponse(msg)`. -/
def matcherMsgData (msg : Msg) (processed current : List Char) :
    Option (Nat × List Char) :=
  if listStartsWith "$msg.data".data current then
    some (9, expandReplacement "$msg.data".data processed.reverse
      (current.drop 9) (safeStringResponse msg).data)
  else none

/-- `/\$msg\.subject/g` with the plain replacement string `msg.subject`. -/
def matcherMsgSubject (msg : Msg) (processed current : List Char) :
    Option (Nat × List Char) :=
  if listStartsWith "$msg.subject".data current then
    some (12, expandReplacement "$msg.subject".data processed.reverse
      (current.drop 12) msg.subject.data)
  else none

/-- `[a-zA-Z0-9_-]` (header-name capture). -/
def isHdrTokenChar (c : Char) : Bool := c.isAlphanum || c == '_' || c == '-'

/-- `[a-zA-Z0-9_]` (json-field capture). -/
def isJsonTokenChar (c : Char) : Bool := c.isAlphanum || c == '_'

/-- `msg.headers?.get(header) ?? ""`. -/
def headerGetOrEmpty (msg : Msg) (name : String) : String :=
  match msg.headers with
  | none => ""
  | some hs => (mapGet hs name).getD ""

/-- `/\$msg\.headers\.([a-zA-Z0-9_-]+)/g` with a callback (callback
results are inserted verbatim). -/
def matcherMsgHeaders (msg : Msg) (_processed current : List Char) :
    Option (Nat × List Char) :=
  if listStartsWith "$msg.headers.".data current then
    let name := (current.drop 13).takeWhile isHdrTokenChar
    if name.isEmpty then none
    else some (13 + name.length, (headerGetOrEmpty msg (String.mk name)).data)
  else none

/-- The `$json` callback body: `typeof value === "string" ? value :
JSON.stringify(value ?? "")` guarded by the try/catch around
`msg.json()`; an absent field and a `null` field both fall to
`JSON.stringify("")`. -/
def jsonTokenValue (msg : Msg) (key : String) : String :=
  match msg.jsonVal with
  | none => ""
  | some data =>
    match jsLookup data key with
    | some (JsonValue.str s) => s
    | some JsonValue.null => jsonStringify (JsonValue.str "")
    | some v => jsonStringify v
    | none => jsonStringify (JsonValue.str "")

/-- `/\$json\.([a-zA-Z0-9_]+)/g` with the callback above. -/
def matcherJson (msg : Msg) (_processed current : List Char) :
    Option (Nat × List Char) :=
  if listStartsWith "$json.".data current then
    let name := (current.drop 6).takeWhile isJsonTokenChar
    if name.isEmpty then none
    else some (6 + name.length, (jsonTokenValue msg (String.mk name)).data)
  else none

def interpolateTemplate (template : String) (msg : Msg) : String :=
  let r1 := jsReplace (matcherMsgData msg) template
  let r2 := jsReplace (matcherMsgSubject msg) r1
  let r3 := jsReplace (matcherMsgHeaders msg) r2
  jsReplace (matcherJson msg) r3

/-! ## Claim-side statement of the `$json` substitution -/

/-- The `$json.<field>` value rule as the amended claim states it: the
top-level field's value from the JSON-decoded body — inserted verbatim
when the value is a string, JSON-encoded when not — the empty string when
the body is not decodable as JSON, and the JSON-encoding of the empty
string (a pair of quote marks) when the field is absent or null. -/
def jsonFieldClaimValue (msg : Msg) (field : String) : String :=
  match msg.jsonVal with
  | none => ""
  | some data =>
    match jsLookup data field with
    | none => jsonQuote ""
    | some JsonValue.null => jsonQuote ""
    | some (JsonValue.str s) => s
    | some v => jsonStringify v

/-- Claim-side scanner: replace each occurrence of `$json.<field>`
(`<field>` a maximal non-empty run of `[a-zA-Z0-9_]`) by the value above;
anything that is not such an occurrence is left as literal text. -/
def interpolateJsonSpecGo (msg : Msg) : Nat → List Char → List Char
  | 0, cs => cs
  | _ + 1, [] => []
  | fuel + 1, c :: rest =>
    if listStartsWith "$json.".data (c :: rest) then
      let field := ((c :: rest).drop 6).takeWhile isJsonTokenChar
      if field.isEmpty then c :: interpolateJsonSpecGo msg fuel rest
      else
        (jsonFieldClaimValue msg (String.mk field)).data ++
          interpolateJsonSpecGo msg fuel ((c :: rest).drop (6 + field.length))
    else c :: interpolateJsonSpecGo msg fuel rest

def interpolateJsonSpec (template : String) (msg : Msg) : String :=
  String.mk (interpolateJsonSpecGo msg template.data.length template.data)

/-! ## Concrete inputs used to exercise the definitions -/

/-- A degenerate identifier supply (no input below contains a
`randomId()` occurrence, so its values are never consulted). -/
def trivialIds : Nat → String := fun _ => ""

/-- A block whose command line is a REPLY with an inline URL target and a
template body. -/
def replyBlockExample : List RawLine :=
  [⟨"REPLY nats://demo/lab", 0⟩, ⟨"", 1⟩, ⟨"hi", 2⟩]

/-- The action `replyBlockExample` parses to. -/
def replyActionExample : NatsAction :=
  { type := NatsActionType.reply
    subject := "lab"
    lineNumber := 0
    server := some "nats://demo"
    template := some "hi" }

/-- A message whose body decodes to the empty JSON object. -/
def msgEmptyObjExample : Msg :=
  { subject := "lab.value"
    body := String.mk [Char.ofNat 123, Char.ofNat 125]
    jsonVal := some (JsonValue.obj JsonObj.nil) }

/-- A message whose body decodes to an object with the string field
`name = "Ada"` (the repository test fixture). -/
def msgAdaExample : Msg :=
  { subject := "lab.greet"
    reply := some "inbox"
    body := "\x7b\"name\":\"Ada\"\x7d"
    jsonVal := some (JsonValue.obj
      (JsonObj.cons "name" (JsonValue.str "Ada") JsonObj.nil)) }

/-! ## Session manager (services/nats-session.ts)

The broker client is the injected external "connector" capability; it is
modelled by `BrokerWorld`, an oracle fixing the outcome of each external
call (successive connector calls, the fresh subscription handles, the
JetStream consumer lookup and fetch).  Observable external effects and
table installs are recorded as `SessionEvent`s in call order.  The
`task` field of the source's `SubscriptionContext` (the spawned consume
loop) is a scheduling artifact with no observable state and is not
carried. -/

structure ConnHandle where
  connId : Nat
  hasJetStream : Bool
  deriving DecidableEq

structure NatsConnectOptions where
  servers : List String
  user : Option String
  pass : Option String
  deriving DecidableEq

structure ManagedConnection where
  serverKey : String
  rawUrl : String
  connection : ConnHandle
  markedClosed : Bool
  deriving DecidableEq

structure SubscriptionContext where
  subject : String
  server : String
  subscription : Nat
  sink : Nat
  template : Option String := none
  payload : Option String := none
  headers : Option (List (String × String)) := none
  deriving DecidableEq

structure SessionState where
  connections : List (String × ManagedConnection) := []
  subscriptions : List (String × SubscriptionContext) := []
  replies : List (String × SubscriptionContext) := []
  subscriptionCounts : List (String × Nat) := []
  replyCounts : List (String × Nat) := []
  deriving DecidableEq

/-- One message yielded by a JetStream fetch, with its acknowledgement
outcome. -/
structure PullMsg where
  body : String
  headers : Option (List (String × String)) := none
  hasAck : Bool
  ackResult : Except String Unit
  deriving DecidableEq

/-- Oracle for the external broker calls: `connector` gives the result of
the i-th connector invocation, `nextSub` the next fresh subscription
handle, `consumersGet` the outcome of `js.consumers.get`, and
`fetchResult` the fetched messages plus an optional error thrown while
iterating after them (`Except.error` = the fetch call itself throws). -/
structure BrokerWorld where
  connector : Nat → Except String ConnHandle
  connCalls : Nat
  nextSub : Nat
  consumersGet : Except String Unit
  fetchResult : Except String (List PullMsg × Option String)

structure LogItemM where
  title : String
  body : Option String := none
  deriving DecidableEq

inductive SessionEvent where
  | connectorCall (options : NatsConnectOptions)
  | subscribeCall (conn : Nat) (subject : String) (handle : Nat)
  | unsubscribeCall (handle : Nat)
  | closeCall (conn : Nat)
  | flushCall (conn : Nat)
  | installConn (serverKey : String) (conn : Nat)
  | fetchCall (stream : String) (durable : String) (maxMessages : Int) (expires : Int)
  | logAppend (sink : Nat) (items : List LogItemM)
  deriving DecidableEq

/-- The outcome of one session operation: the advanced oracle, the new
session state, the external events in order, and the returned value or
thrown error. -/
structure SessionResult (α : Type) where
  world : BrokerWorld
  state : SessionState
  events : List SessionEvent
  outcome : Except String α

/-- Modelled from the spec: `appendLogBlock` (services/log-sink.ts, not
under src/) renders a structured record and appends it to the sink; §6
requires only `appendLine` of the sink, so the model records the append
as an observable event carrying the record's items. -/
def appendLogBlock (sink : Nat) (items : List LogItemM) : SessionEvent :=
  SessionEvent.logAppend sink items

/-- Modelled from the spec: `JetStreamPullOptions`
(services/nats-types.ts, not under src/) carries the pull batch size and
timeout used by `pullJetStream` (§4.4). -/
structure JetStreamPullOptions where
  batchSize : Int
  timeoutMs : Int
  deriving DecidableEq

namespace NatsSession

def subjectKey (server subject : String) : String :=
  server ++ "|" ++ subject

def incrementCount (store : List (String × Nat)) (server subject : String) :
    List (String × Nat) :=
  let key := subjectKey server subject
  mapSet store key ((mapGet store key).getD 0 + 1)

def decrementCount (store : List (String × Nat)) (server subject : String) :
    List (String × Nat) :=
  let key := subjectKey server subject
  let current := (mapGet store key).getD 0
  if current ≤ 1 then mapDelete store key
  else mapSet store key (current - 1)

def collectCount (store : List (String × Nat)) (subject : String) : Nat :=
  store.foldl
    (fun total e => if strEndsWith e.1 ("|" ++ subject) then total + e.2 else total)
    0

def getSubscriptionCount (s : SessionState) (subject : String) : Nat :=
  collectCount s.subscriptionCounts subject

def getReplyHandlerCount (s : SessionState) (subject : String) : Nat :=
  collectCount s.replyCounts subject

def isSubscribed (s : SessionState) (key : String) : Bool :=
  (mapGet s.subscriptions key).isSome

def isReplyHandlerActive (s : SessionState) (key : String) : Bool :=
  (mapGet s.replies key).isSome

/-- `normalizeServerUrl`: `new URL(url)` (throwing on an invalid URL),
then scheme + credentials + host + port. -/
def normalizeServerUrl (purl : String → Option ParsedUrl) (url : String) :
    Except String String :=
  match purl url with
  | none => Except.error "Invalid URL"
  | some parsed =>
    let auth :=
      if parsed.username.data.isEmpty then ""
      else
        parsed.username ++
          (if parsed.password.data.isEmpty then "" else ":" ++ parsed.password) ++ "@"
    let port := if parsed.port.data.isEmpty then "" else ":" ++ parsed.port
    Except.ok (parsed.protocol ++ "//" ++ auth ++ parsed.hostname ++ port)

/-- `buildConnectOptions`: host without credentials, with user/pass
passed separately (`|| undefined` maps empty strings to `none`). -/
def buildConnectOptions (purl : String → Option ParsedUrl) (url : String) :
    Except String NatsConnectOptions :=
  match purl url with
  | none => Except.error "Invalid URL"
  | some parsed =>
    let host := parsed.protocol ++ "//" ++ parsed.hostname ++
      (if parsed.port.data.isEmpty then "" else ":" ++ parsed.port)
    Except.ok
      { servers := [host]
        user := if parsed.username.data.isEmpty then none else some parsed.username
        pass := if parsed.password.data.isEmpty then none else some parsed.password }

def getConnection (purl : String → Option ParsedUrl) (w : BrokerWorld)
    (s : SessionState) (url : String) : SessionResult ManagedConnection :=
  match normalizeServerUrl purl url with
  | Except.error e => ⟨w, s, [], Except.error e⟩
  | Except.ok serverKey =>
    match mapGet s.connections serverKey with
    | some existing => ⟨w, s, [], Except.ok existing⟩
    | none =>
      match buildConnectOptions purl url with
      | Except.error e => ⟨w, s, [], Except.error e⟩
      | Except.ok options =>
        match w.connector w.connCalls with
        | Except.error e =>
          ⟨{ w with connCalls := w.connCalls + 1 }, s,
            [SessionEvent.connectorCall options], Except.error e⟩
        | Except.ok conn =>
          let managed : ManagedConnection :=
            { serverKey := serverKey, rawUrl := url, connection := conn,
              markedClosed := false }
          ⟨{ w with connCalls := w.connCalls + 1 },
            { s with connections := mapSet s.connections serverKey managed },
            [SessionEvent.connectorCall options,
             SessionEvent.installConn serverKey conn.connId],
            Except.ok managed⟩

def startSubscription (purl : String → Option ParsedUrl) (w : BrokerWorld)
    (s : SessionState) (serverUrl subject : String) (sink : Nat)
    (key : String) : SessionResult Unit :=
  if (mapGet s.subscriptions key).isSome then ⟨w, s, [], Except.ok ()⟩
  else
    match getConnection purl w s serverUrl with
    | ⟨w1, s1, ev, Except.error e⟩ => ⟨w1, s1, ev, Except.error e⟩
    | ⟨w1, s1, ev, Except.ok mc⟩ =>
      let handle := w1.nextSub
      let w2 := { w1 with nextSub := w1.nextSub + 1 }
      let ctx : SubscriptionContext :=
        { subject := subject, server := mc.serverKey, subscription := handle,
          sink := sink }
      ⟨w2,
        { s1 with
          subscriptions := mapSet s1.subscriptions key ctx
          subscriptionCounts :=
            incrementCount s1.subscriptionCounts mc.serverKey subject },
        ev ++ [SessionEvent.subscribeCall mc.connection.connId subject handle],
        Except.ok ()⟩

def startReplyHandler (purl : String → Option ParsedUrl) (w : BrokerWorld)
    (s : SessionState) (serverUrl subject : String)
    (template payload : Option String) (sink : Nat) (key : String)
    (replyHeaders : Option (List (String × String))) : SessionResult Unit :=
  if (mapGet s.replies key).isSome then ⟨w, s, [], Except.ok ()⟩
  else
    match getConnection purl w s serverUrl with
    | ⟨w1, s1, ev, Except.error e⟩ => ⟨w1, s1, ev, Except.error e⟩
    | ⟨w1, s1, ev, Except.ok mc⟩ =>
      let handle := w1.nextSub
      let w2 := { w1 with nextSub := w1.nextSub + 1 }
      let ctx : SubscriptionContext :=
        { subject := subject, server := mc.serverKey, subscription := handle,
          sink := sink, template := template, payload := payload,
          headers := replyHeaders }
      ⟨w2,
        { s1 with
          replies := mapSet s1.replies key ctx
          replyCounts := incrementCount s1.replyCounts mc.serverKey subject },
        ev ++ [SessionEvent.subscribeCall mc.connection.connId subject handle],
        Except.ok ()⟩

/-- `stopContext` together with `decrementCount`: tear down the context
registered under `key` (unsubscribe, deregister, decrement), a no-op when
the key has no context. -/
def stopContext (store : List (String × SubscriptionContext)) (key : String)
    (counts : List (String × Nat)) :
    List (String × SubscriptionContext) × List (String × Nat) × List SessionEvent :=
  match mapGet store key with
  | none => (store, counts, [])
  | some context =>
    (mapDelete store key,
     decrementCount counts context.server context.subject,
     [SessionEvent.unsubscribeCall context.subscription])

def stopSubscription (s : SessionState) (key : String) :
    SessionState × List SessionEvent :=
  let r := stopContext s.subscriptions key s.subscriptionCounts
  ({ s with subscriptions := r.1, subscriptionCounts := r.2.1 }, r.2.2)

def stopReplyHandler (s : SessionState) (key : String) :
    SessionState × List SessionEvent :=
  let r := stopContext s.replies key s.replyCounts
  ({ s with replies := r.1, replyCounts := r.2.1 }, r.2.2)

def markConnectionClosed (s : SessionState) (serverKey : String) : SessionState :=
  match mapGet s.connections serverKey with
  | none => s
  | some connection =>
    { s with connections :=
        mapSet s.connections serverKey { connection with markedClosed := true } }

/-- The `for await` body of `pullJetStream` over the fetched batch: log
each message, attempt its acknowledgement, log an "Ack error" (marking
the connection closed on transport-looking messages) without aborting
the rest of the batch. -/
def pullMsgsLoop (mc : ManagedConnection) (sink : Nat) :
    SessionState → List PullMsg → SessionState × List SessionEvent
  | s, [] => (s, [])
  | s, msg :: rest =>
    let received := [appendLogBlock sink
      [{ title := "Received", body := some msg.body }]]
    if msg.hasAck then
      match msg.ackResult with
      | Except.ok _ =>
        let r := pullMsgsLoop mc sink s rest
        (r.1, received ++ r.2)
      | Except.error e =>
        let s2 :=
          if strContainsSub e "DISCONNECT" || strContainsSub e "CONNECTION" then
            markConnectionClosed s mc.serverKey
          else s
        let r := pullMsgsLoop mc sink s2 rest
        (r.1,
         received ++
           [appendLogBlock sink [{ title := "Ack error", body := some e }]] ++ r.2)
    else
      let r := pullMsgsLoop mc sink s rest
      (r.1, received ++ r.2)

def pullJetStream (purl : String → Option ParsedUrl) (w : BrokerWorld)
    (s : SessionState) (serverUrl stream durable : String)
    (options : JetStreamPullOptions) (sink : Nat) : SessionResult Unit :=
  match getConnection purl w s serverUrl with
  | ⟨w1, s1, ev, Except.error e⟩ => ⟨w1, s1, ev, Except.error e⟩
  | ⟨w1, s1, ev, Except.ok mc⟩ =>
    if !mc.connection.hasJetStream then
      ⟨w1, s1, ev, Except.error "JetStream is not available on this connection"⟩
    else
      let batchSize := max 1 options.batchSize
      let expires := max 1000 options.timeoutMs
      match w1.consumersGet with
      | Except.error e =>
        ⟨w1, s1,
          ev ++ [appendLogBlock sink [{ title := "Pull error", body := some e }]],
          Except.ok ()⟩
      | Except.ok _ =>
        let fetchEv := [SessionEvent.fetchCall stream durable batchSize expires]
        match w1.fetchResult with
        | Except.error e =>
          ⟨w1, s1,
            ev ++ fetchEv ++
              [appendLogBlock sink [{ title := "Pull error", body := some e }]],
            Except.ok ()⟩
        | Except.ok (msgs, trailing) =>
          let r := pullMsgsLoop mc sink s1 msgs
          match trailing with
          | some e =>
            ⟨w1, r.1,
              ev ++ fetchEv ++ r.2 ++
                [appendLogBlock sink [{ title := "Pull error", body := some e }]],
              Except.ok ()⟩
          | none =>
            if msgs.isEmpty then
              ⟨w1, r.1,
                ev ++ fetchEv ++ r.2 ++
                  [appendLogBlock sink [{ title := "No messages available" }]],
                Except.ok ()⟩
            else ⟨w1, r.1, ev ++ fetchEv ++ r.2, Except.ok ()⟩

/-- The teardown loops of `reconnectConnection`: stop every captured
context key in order. -/
def stopKeys (store : List (String × SubscriptionContext))
    (counts : List (String × Nat)) :
    List String →
      List (String × SubscriptionContext) × List (String × Nat) × List SessionEvent
  | [] => (store, counts, [])
  | k :: rest =>
    let r := stopContext store k counts
    let r2 := stopKeys r.1 r.2.1 rest
    (r2.1, r2.2.1, r.2.2 ++ r2.2.2)

/-- The re-subscription loop of `reconnectConnection`: re-issue
`startSubscription` under each captured key; a throw aborts the loop and
propagates. -/
def restartSubs (purl : String → Option ParsedUrl) (rawUrl : String) :
    BrokerWorld → SessionState → List (String × SubscriptionContext) →
      SessionResult Unit
  | w, s, [] => ⟨w, s, [], Except.ok ()⟩
  | w, s, (key, ctx) :: rest =>
    match startSubscription purl w s rawUrl ctx.subject ctx.sink key with
    | ⟨w1, s1, ev, Except.error e⟩ => ⟨w1, s1, ev, Except.error e⟩
    | ⟨w1, s1, ev, Except.ok _⟩ =>
      let r := restartSubs purl rawUrl w1 s1 rest
      ⟨r.world, r.state, ev ++ r.events, r.outcome⟩

/-- The reply-handler restart loop of `reconnectConnection`. -/
def restartReplies (purl : String → Option ParsedUrl) (rawUrl : String) :
    BrokerWorld → SessionState → List (String × SubscriptionContext) →
      SessionResult Unit
  | w, s, [] => ⟨w, s, [], Except.ok ()⟩
  | w, s, (key, ctx) :: rest =>
    match startReplyHandler purl w s rawUrl ctx.subject ctx.template
        ctx.payload ctx.sink key ctx.headers with
    | ⟨w1, s1, ev, Except.error e⟩ => ⟨w1, s1, ev, Except.error e⟩
    | ⟨w1, s1, ev, Except.ok _⟩ =>
      let r := restartReplies purl rawUrl w1 s1 rest
      ⟨r.world, r.state, ev ++ r.events, r.outcome⟩

def reconnectConnection (purl : String → Option ParsedUrl) (w : BrokerWorld)
    (s : SessionState) (serverKey : String) : SessionResult Nat :=
  match mapGet s.connections serverKey with
  | none => ⟨w, s, [], Except.error ("No connection found for server: " ++ serverKey)⟩
  | some existing =>
    let subsToReconnect := s.subscriptions.filter (fun e => e.2.server == serverKey)
    let repliesToReconnect := s.replies.filter (fun e => e.2.server == serverKey)
    match buildConnectOptions purl existing.rawUrl with
    | Except.error e => ⟨w, s, [], Except.error e⟩
    | Except.ok options =>
      match w.connector w.connCalls with
      | Except.error e =>
        ⟨{ w with connCalls := w.connCalls + 1 }, s,
          [SessionEvent.connectorCall options], Except.error e⟩
      | Except.ok newConn =>
        let w1 : BrokerWorld := { w with connCalls := w.connCalls + 1 }
        let r1 := stopKeys s.subscriptions s.subscriptionCounts
          (subsToReconnect.map Prod.fst)
        let s1 := { s with subscriptions := r1.1, subscriptionCounts := r1.2.1 }
        let r2 := stopKeys s1.replies s1.replyCounts
          (repliesToReconnect.map Prod.fst)
        let s2 := { s1 with replies := r2.1, replyCounts := r2.2.1 }
        let closeEv := [SessionEvent.closeCall existing.connection.connId]
        let managed : ManagedConnection :=
          { serverKey := serverKey, rawUrl := existing.rawUrl,
            connection := newConn, markedClosed := false }
        let s3 := { s2 with connections := mapSet s2.connections serverKey managed }
        let installEv := [SessionEvent.installConn serverKey newConn.connId]
        let prefixEv := SessionEvent.connectorCall options ::
          (r1.2.2 ++ r2.2.2 ++ closeEv ++ installEv)
        match restartSubs purl existing.rawUrl w1 s3 subsToReconnect with
        | ⟨w2, s4, ev3, Except.error e⟩ =>
          ⟨w2, s4, prefixEv ++ ev3, Except.error e⟩
        | ⟨w2, s4, ev3, Except.ok _⟩ =>
          match restartReplies purl existing.rawUrl w2 s4 repliesToReconnect with
          | ⟨w3, s5, ev4, Except.error e⟩ =>
            ⟨w3, s5, prefixEv ++ ev3 ++ ev4, Except.error e⟩
          | ⟨w3, s5, ev4, Except.ok _⟩ =>
            ⟨w3, s5, prefixEv ++ ev3 ++ ev4,
              Except.ok (subsToReconnect.length + repliesToReconnect.length)⟩

end NatsSession

def isUnsubEvent : SessionEvent → Bool
  | SessionEvent.unsubscribeCall _ => true
  | _ => false

def isCloseEvent : SessionEvent → Bool
  | SessionEvent.closeCall _ => true
  | _ => false

def isInstallEvent : SessionEvent → Bool
  | SessionEvent.installConn _ _ => true
  | _ => false

def firstIdxWhere (p : SessionEvent → Bool) : List SessionEvent → Option Nat
  | [] => none
  | e :: rest => if p e then some 0 else (firstIdxWhere p rest).map (fun n => n + 1)

/-- The ordering the original C3 claim asserts of a reconnection run:
the close of the old physical connection comes only after the
installation of the new one (first occurrences compared). -/
def closeAfterInstall (tr : List SessionEvent) : Bool :=
  match firstIdxWhere isCloseEvent tr, firstIdxWhere isInstallEvent tr with
  | some ci, some ii => decide (ii < ci)
  | _, _ => false

/-- Does the event list carry a log record titled "Pull error"? -/
def hasPullErrorLog (events : List SessionEvent) : Bool :=
  events.any (fun e =>
    match e with
    | SessionEvent.logAppend _ items => items.any (fun it => it.title == "Pull error")
    | _ => false)

/-! ## Concrete session fixtures -/

def connExample : ConnHandle := { connId := 0, hasJetStream := true }

def connExample2 : ConnHandle := { connId := 1, hasJetStream := true }

def managedExample : ManagedConnection :=
  { serverKey := "nats://demo", rawUrl := "nats://demo",
    connection := connExample, markedClosed := false }

/-- The managed connection `getConnection` builds on a fresh acquisition
of `nats://demo` against `connExample2`. -/
def managedExample2 : ManagedConnection :=
  { serverKey := "nats://demo", rawUrl := "nats://demo",
    connection := connExample2, markedClosed := false }

def subCtxExample : SubscriptionContext :=
  { subject := "lab", server := "nats://demo", subscription := 0, sink := 0 }

/-- One live connection to `nats://demo` with one subscription context
under key `k` and its counter at 1. -/
def sessionExample : SessionState :=
  { connections := [("nats://demo", managedExample)]
    subscriptions := [("k", subCtxExample)]
    subscriptionCounts := [("nats://demo|lab", 1)] }

def emptySession : SessionState := {}

def worldOk : BrokerWorld :=
  { connector := fun _ => Except.ok connExample2, connCalls := 0, nextSub := 5,
    consumersGet := Except.ok (), fetchResult := Except.ok ([], none) }

def worldFail : BrokerWorld :=
  { connector := fun _ => Except.error "boom", connCalls := 0, nextSub := 5,
    consumersGet := Except.ok (), fetchResult := Except.ok ([], none) }

def worldConsFail : BrokerWorld :=
  { worldOk with consumersGet := Except.error "lookup failed" }

/-- `buildConnectOptions` of `nats://demo`. -/
def optionsDemoExample : NatsConnectOptions :=
  { servers := ["nats://demo"], user := none, pass := none }

theorem segmentsLines_append (a b : List NatsDocumentSegment) :
    segmentsLines (a ++ b) = segmentsLines a ++ segmentsLines b := by
  induction a with
  | nil => simp [segmentsLines]
  | cons s rest ih => simp [segmentsLines, ih]

theorem segmentLoop_lines (lines : List String) :
    ∀ (idx : Nat) (current : List RawLine),
      segmentsLines (segmentLoop lines idx current) =
        current ++ numberFrom idx lines := by
  induction lines with
  | nil =>
    intro idx current
    by_cases h : current.isEmpty
    · simp [segmentLoop, h, segmentsLines, numberFrom,
        List.isEmpty_iff.mp h]
    · simp [segmentLoop, h, segmentsLines, segmentLines, numberFrom]
  | cons raw rest ih =>
    intro idx current
    by_cases hdel : isBlockDelimiter raw
    · by_cases h : current.isEmpty
      · simp [segmentLoop, hdel, h, segmentsLines, segmentLines, numberFrom,
          segmentsLines_append, ih, List.isEmpty_iff.mp h]
      · simp [segmentLoop, hdel, h, segmentsLines, segmentLines, numberFrom,
          segmentsLines_append, ih]
    · simp [segmentLoop, hdel, ih, numberFrom]

theorem splitLinesAux_ne_nil (cs acc : List Char) : splitLinesAux cs acc ≠ [] := by
  induction cs, acc using splitLinesAux.induct <;> simp [splitLinesAux, *]

theorem splitLines_ne_nil (text : String) : splitLines text ≠ [] :=
  splitLinesAux_ne_nil text.data []

theorem numberFrom_eq_nil_iff (idx : Nat) (l : List String) :
    numberFrom idx l = [] ↔ l = [] := by
  cases l <;> simp [numberFrom]

/-- C6: for every document text, concatenating the line texts of the
segments produced by `segmentNatsDocument`, in order (block lines and
delimiter lines), reconstructs the document's original line sequence with
its zero-based numbering.  The synthetic single-empty-block branch is
unreachable, because `split(/\r?\n/)` never yields an empty line list, so
the reconstruction holds for every input. -/
theorem segmentNatsDocument_reconstructs_lines (text : String) :
    segmentsLines (segmentNatsDocument text) = numberFrom 0 (splitLines text) := by
  have h := segmentLoop_lines (splitLines text) 0 []
  simp only [List.nil_append] at h
  unfold segmentNatsDocument
  by_cases he : (segmentLoop (splitLines text) 0 []).isEmpty
  · exfalso
    rw [List.isEmpty_iff.mp he] at h
    simp only [segmentsLines] at h
    exact splitLines_ne_nil text ((numberFrom_eq_nil_iff 0 _).mp h.symm)
  · simp only [he, if_false, Bool.false_eq_true]
    exact h

/-- C5: for every block that parses into a Reply action, at most one of
the `template` and `data` fields is set — either exactly one of them is
set, or both are absent, never both set.  (The disjunction
`template = none ∨ data = none` is precisely "never both set"; whether
exactly one is set then depends only on whether the block has a body.) -/
theorem parseActionFromBlock_reply_exclusive
    (purl : String → Option ParsedUrl) (ids : Nat → String)
    (lines : List RawLine) (ctr : Nat) (act : NatsAction) (ctr2 : Nat)
    (h : parseActionFromBlock purl ids lines ctr = Except.ok (some act, ctr2))
    (_hr : act.type = NatsActionType.reply) :
    act.template = none ∨ act.data = none := by
  rw [parseActionFromBlock.eq_def] at h
  simp only [] at h
  repeat' split at h
  all_goals try exact Except.noConfusion h
  all_goals try simp only [Except.ok.injEq, Prod.mk.injEq, Option.some.injEq] at h
  all_goals try exact Option.noConfusion h.1
  all_goals obtain ⟨h1, h2⟩ := h
  all_goals rw [← h1]
  all_goals first
    | exact Or.inl rfl
    | exact Or.inr rfl

theorem parseActionFromBlock_reply_exclusive_witness :
    parseActionFromBlock urlPlatformModel trivialIds replyBlockExample 0 =
      Except.ok (some replyActionExample, 0) ∧
    replyActionExample.type = NatsActionType.reply ∧
    (replyActionExample.template = none ∨ replyActionExample.data = none) :=
  ⟨by decide, by decide,
    parseActionFromBlock_reply_exclusive urlPlatformModel trivialIds
      replyBlockExample 0 replyActionExample 0 (by decide) (by decide)⟩

/-- C1: refuted — `parseNatsDocument` does NOT return normally on every
input.  `decodeSubject` feeds the URL path through `decodeURIComponent`
without a guard, so a command line whose URL path carries a malformed
percent escape (here `%zz`) makes the whole document parse throw a
`URIError` instead of dropping the block.  This contradicts the stated
error policy ("parsing never raises"); every other fallible step in the
parse path is guarded (`tryParseUrl` catches its URL errors), so the
unguarded decode is a slip in the code. -/
theorem parseNatsDocument_throws_on_malformed_escape :
    parseNatsDocument urlPlatformModel trivialIds "SUBSCRIBE nats://demo/%zz" =
      Except.error "URI malformed" := by decide

/-- Control: the same command with a well-formed escape parses fine, so
the failure above is specifically the unguarded percent-decoding. -/
theorem parseNatsDocument_ok_on_wellformed :
    (parseNatsDocument urlPlatformModel trivialIds
      "SUBSCRIBE nats://demo/%2Fx").isOk = true := by decide

theorem stringMk_data (s : String) : String.mk s.data = s := rfl

theorem listStartsWith_append (p q cs : List Char)
    (h : listStartsWith (p ++ q) cs = true) : listStartsWith p cs = true := by
  induction p generalizing cs with
  | nil => simp [listStartsWith]
  | cons x xs ih =>
    cases cs with
    | nil => simp [listStartsWith] at h
    | cons c rest =>
      simp only [List.cons_append, listStartsWith, Bool.and_eq_true] at h ⊢
      exact ⟨h.1, ih rest h.2⟩

theorem jsReplaceGo_id
    (matcher : List Char → List Char → Option (Nat × List Char))
    (pm : List Char)
    (hm : ∀ processed cur r, matcher processed cur = some r →
      listStartsWith pm cur = true) :
    ∀ (fuel : Nat) (processed cs : List Char),
      listContainsSub pm cs = false →
      jsReplaceGo matcher fuel processed cs = cs := by
  intro fuel
  induction fuel with
  | zero => intro processed cs _; rfl
  | succ n ih =>
    intro processed cs h
    cases cs with
    | nil => rfl
    | cons c rest =>
      simp only [listContainsSub, Bool.or_eq_false_iff] at h
      have hmatch : matcher processed (c :: rest) = none := by
        cases hmm : matcher processed (c :: rest) with
        | none => rfl
        | some r =>
          rw [hm processed (c :: rest) r hmm] at h
          exact absurd h.1 (by simp)
      simp only [jsReplaceGo, hmatch]
      rw [ih (c :: processed) rest h.2]

theorem jsonTokenValue_eq_claim0 (msg : Msg) (key : String) :
    jsonTokenValue msg key = jsonFieldClaimValue msg key := by
  unfold jsonTokenValue jsonFieldClaimValue
  cases hv : msg.jsonVal with
  | none => rfl
  | some data =>
    rcases h : jsLookup data key with _ | v
    · dsimp only; rw [h]; rfl
    · dsimp only; rw [h]; cases v <;> rfl

theorem jsReplaceGo_json_spec (msg : Msg) :
    ∀ (fuel : Nat) (processed cs : List Char),
      jsReplaceGo (matcherJson msg) fuel processed cs =
        interpolateJsonSpecGo msg fuel cs := by
  intro fuel
  induction fuel with
  | zero => intro processed cs; rfl
  | succ n ih =>
    intro processed cs
    cases cs with
    | nil => rfl
    | cons c rest =>
      by_cases hsw : listStartsWith "$json.".data (c :: rest) = true
      · by_cases hf : (((c :: rest).drop 6).takeWhile isJsonTokenChar).isEmpty = true
        · simp only [jsReplaceGo, matcherJson, interpolateJsonSpecGo, hsw,
            if_true, hf, ih]
        · simp only [jsReplaceGo, matcherJson, interpolateJsonSpecGo, hsw,
            if_true, hf, if_false, Bool.false_eq_true, ih,
            jsonTokenValue_eq_claim0]
      · simp only [Bool.not_eq_true] at hsw
        simp only [jsReplaceGo, matcherJson, interpolateJsonSpecGo, hsw,
          if_false, Bool.false_eq_true, ih]

/-- C4 (amended): for every template that carries no `$msg.` token (so
the three `$msg` passes leave it unchanged) and every message,
`interpolateTemplate` replaces each occurrence of `$json.<field>` with
the top-level field's value from the JSON-decoded message body —
inserted verbatim when the value is a string, JSON-encoded when not —
with the empty string when the body is not decodable as JSON, and with
the JSON-encoding of the empty string (two quote marks) when the field
is absent or null: the whole interpolation coincides with the claim-side
`interpolateJsonSpec`. -/
theorem interpolateTemplate_json_spec (t : String) (m : Msg)
    (h : strContainsSub t "$msg." = false) :
    interpolateTemplate t m = interpolateJsonSpec t m := by
  have hd : ∀ processed cur r, matcherMsgData m processed cur = some r →
      listStartsWith "$msg.".data cur = true := by
    intro processed cur r hmm
    unfold matcherMsgData at hmm
    by_cases hs : listStartsWith "$msg.data".data cur = true
    · exact listStartsWith_append "$msg.".data "data".data cur (by
        have : "$msg.".data ++ "data".data = "$msg.data".data := by decide
        rw [this]; exact hs)
    · simp [hs] at hmm
  have hsub : ∀ processed cur r, matcherMsgSubject m processed cur = some r →
      listStartsWith "$msg.".data cur = true := by
    intro processed cur r hmm
    unfold matcherMsgSubject at hmm
    by_cases hs : listStartsWith "$msg.subject".data cur = true
    · exact listStartsWith_append "$msg.".data "subject".data cur (by
        have : "$msg.".data ++ "subject".data = "$msg.subject".data := by decide
        rw [this]; exact hs)
    · simp [hs] at hmm
  have hhdr : ∀ processed cur r, matcherMsgHeaders m processed cur = some r →
      listStartsWith "$msg.".data cur = true := by
    intro processed cur r hmm
    unfold matcherMsgHeaders at hmm
    by_cases hs : listStartsWith "$msg.headers.".data cur = true
    · exact listStartsWith_append "$msg.".data "headers.".data cur (by
        have : "$msg.".data ++ "headers.".data = "$msg.headers.".data := by decide
        rw [this]; exact hs)
    · simp [hs] at hmm
  unfold interpolateTemplate jsReplace
  rw [jsReplaceGo_id (matcherMsgData m) "$msg.".data hd t.data.length [] t.data h,
    stringMk_data,
    jsReplaceGo_id (matcherMsgSubject m) "$msg.".data hsub t.data.length [] t.data h,
    stringMk_data,
    jsReplaceGo_id (matcherMsgHeaders m) "$msg.".data hhdr t.data.length [] t.data h,
    stringMk_data,
    jsReplaceGo_json_spec m t.data.length [] t.data]
  rfl

/-- C4: refuted as stated — `interpolateTemplate` does not insert the
empty string for an absent `$json` field.  The callback computes
`JSON.stringify(value ?? "")`, so an absent (or null) field is replaced
by the two-character text consisting of two quote marks, not by the
empty string. -/
theorem interpolateTemplate_json_absent_counterexample :
    interpolateTemplate "$json.missing" msgEmptyObjExample = "\x22\x22" ∧
    ¬ interpolateTemplate "$json.missing" msgEmptyObjExample = "" :=
  ⟨by decide, by decide⟩

theorem interpolateTemplate_json_spec_witness :
    strContainsSub "Hello, $json.name!" "$msg." = false ∧
    interpolateTemplate "Hello, $json.name!" msgAdaExample =
      interpolateJsonSpec "Hello, $json.name!" msgAdaExample ∧
    interpolateJsonSpec "Hello, $json.name!" msgAdaExample = "Hello, Ada!" :=
  ⟨by decide,
    interpolateTemplate_json_spec "Hello, $json.name!" msgAdaExample (by decide),
    by decide⟩

theorem mapGet_mapDelete_self {β : Type} (m : List (String × β)) (k : String) :
    mapGet (mapDelete m k) k = none := by
  induction m with
  | nil => rfl
  | cons e rest ih =>
    by_cases h : e.1 == k
    · simpa [mapDelete, h] using ih
    · simpa [mapDelete, mapGet, h] using ih

theorem mapGet_mapSet_self {β : Type} (m : List (String × β)) (k : String) (v : β) :
    mapGet (mapSet m k v) k = some v := by
  induction m with
  | nil => simp [mapSet, mapGet]
  | cons e rest ih =>
    by_cases h : e.1 == k
    · simp [mapSet, mapGet, h]
    · simp [mapSet, mapGet, h, ih]

/-- C7: a second `startSubscription` under an already-active key is a
no-op: the session state (context maps, counters, connection table) is
returned unchanged, no broker call of any kind is made (empty event
list, the connector/handle oracle is not advanced), and the call
succeeds. -/
theorem startSubscription_idempotent (purl : String → Option ParsedUrl)
    (w : BrokerWorld) (s : SessionState) (serverUrl subject : String)
    (sink : Nat) (key : String)
    (h : (mapGet s.subscriptions key).isSome = true) :
    NatsSession.startSubscription purl w s serverUrl subject sink key =
      ⟨w, s, [], Except.ok ()⟩ := by
  unfold NatsSession.startSubscription
  simp [h]

theorem startSubscription_idempotent_witness :
    NatsSession.startSubscription urlPlatformModel worldOk sessionExample
      "nats://demo" "lab" 0 "k" = ⟨worldOk, sessionExample, [], Except.ok ()⟩ :=
  startSubscription_idempotent urlPlatformModel worldOk sessionExample
    "nats://demo" "lab" 0 "k" (by decide)

/-- C10: stopping a key that has no registered context is a no-op for
both `stopSubscription` and `stopReplyHandler`: the full session state
(context maps, both counter maps, connection table) is unchanged and no
unsubscribe is issued. -/
theorem stop_missing_key_noop (s : SessionState) (key : String) :
    (mapGet s.subscriptions key = none →
      NatsSession.stopSubscription s key = (s, [])) ∧
    (mapGet s.replies key = none →
      NatsSession.stopReplyHandler s key = (s, [])) := by
  constructor
  · intro h
    simp only [NatsSession.stopSubscription, NatsSession.stopContext, h]
  · intro h
    simp only [NatsSession.stopReplyHandler, NatsSession.stopContext, h]

theorem stop_missing_key_noop_witness :
    NatsSession.stopSubscription sessionExample "missing" = (sessionExample, []) ∧
    NatsSession.stopReplyHandler sessionExample "missing" = (sessionExample, []) :=
  ⟨(stop_missing_key_noop sessionExample "missing").1 (by decide),
   (stop_missing_key_noop sessionExample "missing").2 (by decide)⟩

theorem collectCount_foldl_invariant (subject : String)
    (m : List (String × Nat))
    (h : ∀ p ∈ m, strEndsWith p.1 ("|" ++ subject) = false) :
    ∀ init : Nat,
      m.foldl (fun total e =>
        if strEndsWith e.1 ("|" ++ subject) then total + e.2 else total) init = init := by
  induction m with
  | nil => intro init; rfl
  | cons e rest ih =>
    intro init
    have he := h e (by simp)
    simp only [List.foldl_cons, he, if_false, Bool.false_eq_true]
    exact ih (fun p hp => h p (by simp [hp])) init

theorem collectCount_zero (m : List (String × Nat)) (subject : String)
    (h : ∀ p ∈ m, strEndsWith p.1 ("|" ++ subject) = false) :
    NatsSession.collectCount m subject = 0 :=
  collectCount_foldl_invariant subject m h 0

/-- C8: stopping a registered context decrements the counter for its
(connection, subject) pair to exactly the prior value minus one; when
the stopped context was the last one for the pair (prior value 1), the
pair's entry is removed from the counter map entirely, so a subsequent
count query sees 0 — in particular the public per-subject aggregate is 0
when no other connection serves that subject.  `stopSubscription` and
`stopReplyHandler` are both instances of this `stopContext` /
`decrementCount` pair (on the subscription and the reply stores
respectively). -/
theorem stopContext_decrements
    (store : List (String × SubscriptionContext)) (key : String)
    (counts : List (String × Nat)) (ctx : SubscriptionContext) (n : Nat)
    (h1 : mapGet store key = some ctx)
    (h2 : mapGet counts (NatsSession.subjectKey ctx.server ctx.subject) = some n)
    (h3 : 1 ≤ n) :
    (mapGet (NatsSession.stopContext store key counts).2.1
        (NatsSession.subjectKey ctx.server ctx.subject) =
      if n = 1 then none else some (n - 1)) ∧
    ((mapGet (NatsSession.stopContext store key counts).2.1
        (NatsSession.subjectKey ctx.server ctx.subject)).getD 0 = n - 1) ∧
    (n = 1 →
      (∀ p ∈ counts, strEndsWith p.1 ("|" ++ ctx.subject) = true →
        p.1 = NatsSession.subjectKey ctx.server ctx.subject) →
      NatsSession.collectCount (NatsSession.stopContext store key counts).2.1
        ctx.subject = 0) := by
  unfold NatsSession.stopContext
  rw [h1]
  simp only [NatsSession.decrementCount, h2, Option.getD_some]
  by_cases hn : n = 1
  · rw [if_pos (by omega : n ≤ 1)]
    refine ⟨?_, ?_, fun _ hone => ?_⟩
    · rw [mapGet_mapDelete_self, if_pos hn]
    · rw [mapGet_mapDelete_self]
      subst hn; rfl
    · apply collectCount_zero
      intro p hp
      have hpm : p ∈ counts := List.mem_of_mem_filter hp
      have hpk : (p.1 == NatsSession.subjectKey ctx.server ctx.subject) = false := by
        have := List.of_mem_filter hp
        simpa using this
      cases hsuf : strEndsWith p.1 ("|" ++ ctx.subject) with
      | false => rfl
      | true =>
        exfalso
        have := hone p hpm hsuf
        rw [this] at hpk
        simp at hpk
  · rw [if_neg (by omega : ¬ n ≤ 1)]
    rw [mapGet_mapSet_self]
    exact ⟨by rw [if_neg hn], rfl, fun h _ => absurd h hn⟩

theorem stopContext_decrements_witness :
    (mapGet (NatsSession.stopContext [("k", subCtxExample)] "k"
        [("nats://demo|lab", 1)]).2.1
        (NatsSession.subjectKey subCtxExample.server subCtxExample.subject) =
      if 1 = 1 then none else some (1 - 1)) ∧
    ((mapGet (NatsSession.stopContext [("k", subCtxExample)] "k"
        [("nats://demo|lab", 1)]).2.1
        (NatsSession.subjectKey subCtxExample.server subCtxExample.subject)).getD 0 =
      1 - 1) ∧
    (1 = 1 →
      (∀ p ∈ [("nats://demo|lab", 1)], strEndsWith p.1 ("|" ++ subCtxExample.subject) = true →
        p.1 = NatsSession.subjectKey subCtxExample.server subCtxExample.subject) →
      NatsSession.collectCount (NatsSession.stopContext [("k", subCtxExample)] "k"
        [("nats://demo|lab", 1)]).2.1 subCtxExample.subject = 0) :=
  stopContext_decrements [("k", subCtxExample)] "k" [("nats://demo|lab", 1)]
    subCtxExample 1 (by decide) (by decide) (by decide)

/-- C2 (amended): when `reconnectConnection` is invoked on an existing
identity and the connector call for the replacement connection fails,
the failure is surfaced to the caller — but the subscription and
reply-handler contexts previously bound to that identity have NOT been
torn down at the point of failure: the session state is returned
entirely unchanged (teardown happens only after the connector has
succeeded). -/
theorem reconnectConnection_connector_failure
    (purl : String → Option ParsedUrl) (w : BrokerWorld) (s : SessionState)
    (serverKey : String) (existing : ManagedConnection)
    (options : NatsConnectOptions) (e : String)
    (h1 : mapGet s.connections serverKey = some existing)
    (h2 : NatsSession.buildConnectOptions purl existing.rawUrl = Except.ok options)
    (h3 : w.connector w.connCalls = Except.error e) :
    NatsSession.reconnectConnection purl w s serverKey =
      ⟨{ w with connCalls := w.connCalls + 1 }, s,
        [SessionEvent.connectorCall options], Except.error e⟩ := by
  unfold NatsSession.reconnectConnection
  rw [h1]
  simp only [h2, h3]

/-- C2: refuted as stated — at the point of a connector failure during
`reconnectConnection`, the contexts bound to the identity are still
registered (here key `k` still holds its context), contradicting the
claim that they have already been torn down; the failure itself is
surfaced. -/
theorem reconnectConnection_counterexample_contexts_survive :
    (NatsSession.reconnectConnection urlPlatformModel worldFail sessionExample
      "nats://demo").outcome = Except.error "boom" ∧
    mapGet (NatsSession.reconnectConnection urlPlatformModel worldFail
      sessionExample "nats://demo").state.subscriptions "k" = some subCtxExample ∧
    ¬ mapGet (NatsSession.reconnectConnection urlPlatformModel worldFail
      sessionExample "nats://demo").state.subscriptions "k" = none :=
  ⟨by decide, by decide, by decide⟩

theorem reconnectConnection_connector_failure_witness :
    NatsSession.reconnectConnection urlPlatformModel worldFail sessionExample
      "nats://demo" =
    ⟨{ worldFail with connCalls := worldFail.connCalls + 1 }, sessionExample,
      [SessionEvent.connectorCall optionsDemoExample], Except.error "boom"⟩ :=
  reconnectConnection_connector_failure urlPlatformModel worldFail sessionExample
    "nats://demo" managedExample optionsDemoExample "boom"
    (by decide) (by decide) (by decide)

theorem stopContext_events_unsub
    (store : List (String × SubscriptionContext)) (key : String)
    (counts : List (String × Nat)) :
    ∀ ev ∈ (NatsSession.stopContext store key counts).2.2, isUnsubEvent ev = true := by
  unfold NatsSession.stopContext
  split
  · simp
  · simp [isUnsubEvent]

theorem stopKeys_events_unsub (keys : List String) :
    ∀ (store : List (String × SubscriptionContext)) (counts : List (String × Nat)),
      ∀ ev ∈ (NatsSession.stopKeys store counts keys).2.2, isUnsubEvent ev = true := by
  induction keys with
  | nil => intro store counts ev hev; simp [NatsSession.stopKeys] at hev
  | cons k rest ih =>
    intro store counts ev hev
    simp only [NatsSession.stopKeys, List.mem_append] at hev
    rcases hev with hev | hev
    · exact stopContext_events_unsub store k counts ev hev
    · exact ih _ _ ev hev

theorem getConnection_events_not_close (purl : String → Option ParsedUrl)
    (w : BrokerWorld) (s : SessionState) (url : String) :
    ∀ ev ∈ (NatsSession.getConnection purl w s url).events, isCloseEvent ev = false := by
  unfold NatsSession.getConnection
  repeat' split
  all_goals simp [isCloseEvent]

theorem startSubscription_events_not_close (purl : String → Option ParsedUrl)
    (w : BrokerWorld) (s : SessionState) (serverUrl subject : String)
    (sink : Nat) (key : String) :
    ∀ ev ∈ (NatsSession.startSubscription purl w s serverUrl subject sink key).events,
      isCloseEvent ev = false := by
  unfold NatsSession.startSubscription
  split
  · simp
  · split
    all_goals rename_i heq
    all_goals have hnc := getConnection_events_not_close purl w s serverUrl
    all_goals rw [heq] at hnc
    · simpa using hnc
    · intro ev hev
      simp only [List.mem_append, List.mem_singleton] at hev
      rcases hev with hev | hev
      · exact hnc ev hev
      · rw [hev]; rfl

theorem startReplyHandler_events_not_close (purl : String → Option ParsedUrl)
    (w : BrokerWorld) (s : SessionState) (serverUrl subject : String)
    (template payload : Option String) (sink : Nat) (key : String)
    (replyHeaders : Option (List (String × String))) :
    ∀ ev ∈ (NatsSession.startReplyHandler purl w s serverUrl subject template
        payload sink key replyHeaders).events,
      isCloseEvent ev = false := by
  unfold NatsSession.startReplyHandler
  split
  · simp
  · split
    all_goals rename_i heq
    all_goals have hnc := getConnection_events_not_close purl w s serverUrl
    all_goals rw [heq] at hnc
    · simpa using hnc
    · intro ev hev
      simp only [List.mem_append, List.mem_singleton] at hev
      rcases hev with hev | hev
      · exact hnc ev hev
      · rw [hev]; rfl

theorem restartSubs_events_not_close (purl : String → Option ParsedUrl)
    (rawUrl : String) (items : List (String × SubscriptionContext)) :
    ∀ (w : BrokerWorld) (s : SessionState),
      ∀ ev ∈ (NatsSession.restartSubs purl rawUrl w s items).events,
        isCloseEvent ev = false := by
  induction items with
  | nil => intro w s ev hev; simp [NatsSession.restartSubs] at hev
  | cons item rest ih =>
    intro w s ev hev
    unfold NatsSession.restartSubs at hev
    have hnc := startSubscription_events_not_close purl w s rawUrl
      item.2.subject item.2.sink item.1
    revert hev
    split
    · rename_i heq
      rw [heq] at hnc
      intro hev
      exact hnc ev (by simpa using hev)
    · rename_i heq
      rw [heq] at hnc
      intro hev
      simp only [List.mem_append] at hev
      rcases hev with hev | hev
      · exact hnc ev hev
      · exact ih _ _ ev hev

theorem restartReplies_events_not_close (purl : String → Option ParsedUrl)
    (rawUrl : String) (items : List (String × SubscriptionContext)) :
    ∀ (w : BrokerWorld) (s : SessionState),
      ∀ ev ∈ (NatsSession.restartReplies purl rawUrl w s items).events,
        isCloseEvent ev = false := by
  induction items with
  | nil => intro w s ev hev; simp [NatsSession.restartReplies] at hev
  | cons item rest ih =>
    intro w s ev hev
    unfold NatsSession.restartReplies at hev
    have hnc := startReplyHandler_events_not_close purl w s rawUrl
      item.2.subject item.2.template item.2.payload item.2.sink item.1 item.2.headers
    revert hev
    split
    · rename_i heq
      rw [heq] at hnc
      intro hev
      exact hnc ev (by simpa using hev)
    · rename_i heq
      rw [heq] at hnc
      intro hev
      simp only [List.mem_append] at hev
      rcases hev with hev | hev
      · exact hnc ev hev
      · exact ih _ _ ev hev

/-- C3 (amended): during a `reconnectConnection` whose connector call
succeeds, the old physical connection is closed only after the
replacement connection has been established and all dependent
subscription/reply-handler contexts have been torn down (every event
before the close besides the connector call is an unsubscribe) — but
BEFORE the new connection is installed in the connection table and
before the dependent contexts are rebound: the trace is connector call,
teardown unsubscribes, close of the old connection, install of the new
one, then the rebinding events (none of which closes anything). -/
theorem reconnectConnection_close_ordering
    (purl : String → Option ParsedUrl) (w : BrokerWorld) (s : SessionState)
    (serverKey : String) (existing : ManagedConnection)
    (options : NatsConnectOptions) (newConn : ConnHandle)
    (h1 : mapGet s.connections serverKey = some existing)
    (h2 : NatsSession.buildConnectOptions purl existing.rawUrl = Except.ok options)
    (h3 : w.connector w.connCalls = Except.ok newConn) :
    ∃ stopEvs restartEvs,
      (NatsSession.reconnectConnection purl w s serverKey).events =
        SessionEvent.connectorCall options ::
          (stopEvs ++ SessionEvent.closeCall existing.connection.connId ::
            SessionEvent.installConn serverKey newConn.connId :: restartEvs) ∧
      (∀ ev ∈ stopEvs, isUnsubEvent ev = true) ∧
      (∀ ev ∈ restartEvs, isCloseEvent ev = false) := by
  unfold NatsSession.reconnectConnection
  rw [h1]
  simp only [h2, h3]
  generalize hR1 : NatsSession.stopKeys s.subscriptions s.subscriptionCounts
    (List.map Prod.fst (List.filter (fun e => e.2.server == serverKey)
      s.subscriptions)) = R1
  generalize hR2 : NatsSession.stopKeys s.replies s.replyCounts
    (List.map Prod.fst (List.filter (fun e => e.2.server == serverKey)
      s.replies)) = R2
  have hs1 : ∀ ev ∈ R1.2.2, isUnsubEvent ev = true := by
    rw [← hR1]; exact stopKeys_events_unsub _ _ _
  have hs2 : ∀ ev ∈ R2.2.2, isUnsubEvent ev = true := by
    rw [← hR2]; exact stopKeys_events_unsub _ _ _
  have hstop : ∀ ev ∈ R1.2.2 ++ R2.2.2, isUnsubEvent ev = true := by
    intro ev hev
    rcases List.mem_append.mp hev with h | h
    · exact hs1 ev h
    · exact hs2 ev h
  split
  · rename_i w2 s4 ev3 e heq
    refine ⟨R1.2.2 ++ R2.2.2, ev3, by simp, hstop, ?_⟩
    intro ev hev
    exact restartSubs_events_not_close purl existing.rawUrl
      (List.filter (fun e => e.2.server == serverKey) s.subscriptions) _ _ ev
      (by rw [heq]; exact hev)
  · rename_i w2 s4 ev3 a heq
    split
    · rename_i w3 s5 ev4 e heq2
      refine ⟨R1.2.2 ++ R2.2.2, ev3 ++ ev4, by simp, hstop, ?_⟩
      intro ev hev
      rcases List.mem_append.mp hev with h | h
      · exact restartSubs_events_not_close purl existing.rawUrl
          (List.filter (fun e => e.2.server == serverKey) s.subscriptions) _ _ ev
          (by rw [heq]; exact h)
      · exact restartReplies_events_not_close purl existing.rawUrl
          (List.filter (fun e => e.2.server == serverKey) s.replies) _ _ ev
          (by rw [heq2]; exact h)
    · rename_i w3 s5 ev4 a2 heq2
      refine ⟨R1.2.2 ++ R2.2.2, ev3 ++ ev4, by simp, hstop, ?_⟩
      intro ev hev
      rcases List.mem_append.mp hev with h | h
      · exact restartSubs_events_not_close purl existing.rawUrl
          (List.filter (fun e => e.2.server == serverKey) s.subscriptions) _ _ ev
          (by rw [heq]; exact h)
      · exact restartReplies_events_not_close purl existing.rawUrl
          (List.filter (fun e => e.2.server == serverKey) s.replies) _ _ ev
          (by rw [heq2]; exact h)

/-- C3: refuted as stated — in a concrete successful reconnection run
the close of the old physical connection happens strictly BEFORE the new
connection is installed in the connection table (and before rebinding),
so "closed only after the new connection has been installed" is false on
the code. -/
theorem reconnectConnection_counterexample_close_before_install :
    (NatsSession.reconnectConnection urlPlatformModel worldOk sessionExample
      "nats://demo").outcome = Except.ok 1 ∧
    closeAfterInstall (NatsSession.reconnectConnection urlPlatformModel worldOk
      sessionExample "nats://demo").events = false :=
  ⟨by decide, by decide⟩

theorem reconnectConnection_close_ordering_witness :
    ∃ stopEvs restartEvs,
      (NatsSession.reconnectConnection urlPlatformModel worldOk sessionExample
        "nats://demo").events =
        SessionEvent.connectorCall optionsDemoExample ::
          (stopEvs ++ SessionEvent.closeCall managedExample.connection.connId ::
            SessionEvent.installConn "nats://demo" connExample2.connId :: restartEvs) ∧
      (∀ ev ∈ stopEvs, isUnsubEvent ev = true) ∧
      (∀ ev ∈ restartEvs, isCloseEvent ev = false) :=
  reconnectConnection_close_ordering urlPlatformModel worldOk sessionExample
    "nats://demo" managedExample optionsDemoExample connExample2
    (by decide) (by decide) (by decide)

theorem hasPullErrorLog_append (xs ys : List SessionEvent) :
    hasPullErrorLog (xs ++ ys) = (hasPullErrorLog xs || hasPullErrorLog ys) :=
  List.any_append

theorem getConnection_world_oracles (purl : String → Option ParsedUrl)
    (w : BrokerWorld) (s : SessionState) (url : String) :
    (NatsSession.getConnection purl w s url).world.consumersGet = w.consumersGet ∧
    (NatsSession.getConnection purl w s url).world.fetchResult = w.fetchResult := by
  unfold NatsSession.getConnection
  repeat' split
  all_goals exact ⟨rfl, rfl⟩

/-- C9: `pullJetStream` raises an error to the caller exactly when the
acquired connection lacks JetStream capability (with the descriptive
message) or connection acquisition itself fails; and whenever the
connection is acquired with JetStream capability, every failure of the
consumer lookup or of the fetch (including one thrown while draining the
batch) is caught: the call returns normally and a "Pull error" record is
appended to the sink. -/
theorem pullJetStream_error_discipline (purl : String → Option ParsedUrl)
    (w : BrokerWorld) (s : SessionState) (serverUrl stream durable : String)
    (options : JetStreamPullOptions) (sink : Nat) :
    (∀ e, (NatsSession.pullJetStream purl w s serverUrl stream durable options
        sink).outcome = Except.error e ↔
      ((NatsSession.getConnection purl w s serverUrl).outcome = Except.error e ∨
       (∃ mc, (NatsSession.getConnection purl w s serverUrl).outcome = Except.ok mc ∧
         mc.connection.hasJetStream = false ∧
         e = "JetStream is not available on this connection"))) ∧
    (∀ mc, (NatsSession.getConnection purl w s serverUrl).outcome = Except.ok mc →
      mc.connection.hasJetStream = true →
      ((∃ ce, w.consumersGet = Except.error ce) ∨
       (∃ fe, w.fetchResult = Except.error fe) ∨
       (∃ msgs fe, w.fetchResult = Except.ok (msgs, some fe))) →
      (NatsSession.pullJetStream purl w s serverUrl stream durable options
        sink).outcome = Except.ok () ∧
      hasPullErrorLog (NatsSession.pullJetStream purl w s serverUrl stream durable
        options sink).events = true) := by
  have hor := getConnection_world_oracles purl w s serverUrl
  rcases hg : NatsSession.getConnection purl w s serverUrl with ⟨w1, s1, ev1, oc⟩
  rw [hg] at hor
  simp only at hor
  unfold NatsSession.pullJetStream
  rw [hg]
  rcases oc with e0 | mc
  · constructor
    · intro e
      simp
    · intro mc hmc
      exact absurd hmc (by simp)
  · by_cases hjs : mc.connection.hasJetStream = true
    · simp only [hjs, Bool.not_true, Bool.false_eq_true, if_false]
      rw [hor.1, hor.2]
      rcases hc : w.consumersGet with ce | cu
      · constructor
        · intro e
          simp [hjs]
        · intro mc' hmc' _ _
          refine ⟨rfl, ?_⟩
          simp [hasPullErrorLog_append, hasPullErrorLog, appendLogBlock]
      · rcases hf : w.fetchResult with fe | mp
        · constructor
          · intro e
            simp [hjs]
          · intro mc' hmc' _ _
            refine ⟨rfl, ?_⟩
            simp [hasPullErrorLog_append, hasPullErrorLog, appendLogBlock]
        · rcases mp with ⟨msgs, trailing⟩
          rcases trailing with _ | te
          · by_cases hme : msgs.isEmpty
            · simp only [hme, if_true]
              constructor
              · intro e
                simp [hjs]
              · intro mc' hmc' hjs' hfail
                exfalso
                rcases hfail with ⟨ce, hce⟩ | ⟨fe, hfe⟩ | ⟨ms, fe, hms⟩
                · exact Except.noConfusion hce
                · exact Except.noConfusion hfe
                · simp at hms
            · simp only [hme, Bool.false_eq_true, if_false]
              constructor
              · intro e
                simp [hjs]
              · intro mc' hmc' hjs' hfail
                exfalso
                rcases hfail with ⟨ce, hce⟩ | ⟨fe, hfe⟩ | ⟨ms, fe, hms⟩
                · exact Except.noConfusion hce
                · exact Except.noConfusion hfe
                · simp at hms
          · constructor
            · intro e
              simp [hjs]
            · intro mc' hmc' _ _
              refine ⟨rfl, ?_⟩
              simp [hasPullErrorLog_append, hasPullErrorLog, appendLogBlock]
    · have hjsf : mc.connection.hasJetStream = false := by
        cases h : mc.connection.hasJetStream
        · rfl
        · exact absurd h hjs
      simp only [hjsf, Bool.not_false, if_true]
      constructor
      · intro e
        constructor
        · intro h
          refine Or.inr ⟨mc, rfl, hjsf, ?_⟩
          have := Except.error.inj h
          exact this.symm
        · intro h
          rcases h with h | ⟨mc', hmc', _, he⟩
          · exact absurd h (by simp)
          · rw [he]
      · intro mc' hmc' hjs' _
        have : mc' = mc := by
          have := Except.ok.inj hmc'
          exact this.symm
        rw [this] at hjs'
        rw [hjsf] at hjs'
        exact absurd hjs' (by simp)

theorem pullJetStream_error_discipline_witness :
    (NatsSession.pullJetStream urlPlatformModel worldConsFail emptySession
      "nats://demo" "S" "D" ⟨1, 1000⟩ 0).outcome = Except.ok () ∧
    hasPullErrorLog (NatsSession.pullJetStream urlPlatformModel worldConsFail
      emptySession "nats://demo" "S" "D" ⟨1, 1000⟩ 0).events = true :=
  (pullJetStream_error_discipline urlPlatformModel worldConsFail emptySession
    "nats://demo" "S" "D" ⟨1, 1000⟩ 0).2 managedExample2 (by decide) (by decide)
    (Or.inl ⟨"lookup failed", by decide⟩)
